import Mathlib

/-!
Verification development for the Quant repository's Fact Normalization &
Fiscal-Period Reconciliation Engine.

The Python sources are shallowly embedded:
* numeric values are modelled as rationals (ℚ), the exact idealization of the
  float arithmetic the code performs (all claims are about exact quantities);
* `re.findall` results are passed in as explicit lists of match strings, since
  the regex engine itself is an external collaborator: every selection loop
  that consumes those match lists is transcribed faithfully;
* Python `dict`s with a fixed key set become structures of `Option` fields,
  Python `dict`s with dynamic keys become association lists;
* the one place the code can raise (comparing a missing `filed` date with
  `None`) is modelled with `Except`.
-/

namespace Quant

/-! ## Python float parsing of regex-captured numeric literals

`float(value_str)` on the strings captured by the extraction regexes
(digits, commas and at most one dot; in `Teste2.py` also an optional sign and
parentheses handled before the call).  `pyFloat` returns `none` exactly when
`float` would raise `ValueError`. -/

/-- Value of a digit list, `none` when empty or containing a non-digit. -/
def decDigits (cs : List Char) : Option Nat :=
  if cs.isEmpty then none
  else if cs.all Char.isDigit then
    some (cs.foldl (fun n c => n * 10 + (c.toNat - 48)) 0)
  else none

/-- Python `float` on the characters of a simple decimal literal: optional
sign, integer part, optional dot and fractional part (at least one digit
overall). -/
def pyFloatChars (cs : List Char) : Option ℚ :=
  let signed : Bool × List Char :=
    match cs with
    | '-' :: rest => (true, rest)
    | '+' :: rest => (false, rest)
    | _ => (false, cs)
  let ip := signed.2.takeWhile (fun c => c != '.')
  let body : Option ℚ :=
    match signed.2.dropWhile (fun c => c != '.') with
    | [] => (decDigits ip).map (fun n => (n : ℚ))
    | _ :: frac =>
      if ip.isEmpty && frac.isEmpty then none
      else if ip.all Char.isDigit && frac.all Char.isDigit then
        some (((decDigits ip).getD 0 : ℚ) +
          ((decDigits frac).getD 0 : ℚ) / ((10 : ℚ) ^ frac.length))
      else none
  body.map (fun v => if signed.1 then -v else v)

/-- Python `float` on a string literal. -/
def pyFloat (s : String) : Option ℚ :=
  pyFloatChars s.data

/-- `value_str.replace(',', '')`. -/
def dropCommas (s : String) : String :=
  String.mk (s.data.filter (fun c => c != ','))

/-! ## Clear_Data.py: free-text extraction

`extract_income_statement_generic`, `extract_balance_sheet_generic` and
`extract_cash_flow_generic` all run the same per-field loop (lines 206-222,
273-286, 327-340 of `Clear_Data.py`): for each pattern of the field, take the
regex matches; if non-empty, parse the LAST match (`matches[-1]`), normalize
its scale, store it and stop trying patterns for this field; on a parse
failure try the next pattern. -/

/-- Scale normalization, `Clear_Data.py` lines 216-217:
`if value < 1000 and value > 0: value = value * 1000000`. -/
def normalizeScale (v : ℚ) : ℚ :=
  if v < 1000 ∧ 0 < v then v * 1000000 else v

/-- One pattern attempt: `value_str = matches[-1]`, drop commas, `float`,
then scale normalization.  `none` when the match list is empty or the last
match does not parse. -/
def tryPatternMatches (ms : List String) : Option ℚ :=
  match ms.getLast? with
  | none => none
  | some s =>
    match pyFloat (dropCommas s) with
    | none => none
    | some v => some (normalizeScale v)

/-- The per-field pattern loop: first pattern whose (non-empty) match list
has a parseable last match wins; the `break` stops later patterns. -/
def extractField : List (List String) → Option ℚ
  | [] => none
  | ms :: rest =>
    match tryPatternMatches ms with
    | some v => some v
    | none => extractField rest

/-- Regex match lists for the seven income-statement fields of
`extract_income_statement_generic` (one list of match strings per pattern). -/
structure IncomeMatches where
  revenue : List (List String) := []
  gross_profit : List (List String) := []
  operating_income : List (List String) := []
  net_income : List (List String) := []
  cost_of_revenue : List (List String) := []
  research_development : List (List String) := []
  selling_general_admin : List (List String) := []

/-- The `income_data` dict built by `extract_income_statement_generic`:
absent keys are `none`. -/
structure IncomeData where
  revenue : Option ℚ := none
  gross_profit : Option ℚ := none
  operating_income : Option ℚ := none
  net_income : Option ℚ := none
  cost_of_revenue : Option ℚ := none
  research_development : Option ℚ := none
  selling_general_admin : Option ℚ := none
  gross_profit_calculated : Option ℚ := none
deriving DecidableEq

/-- `Clear_Data.py` lines 164-229.  Each field is the per-field pattern loop;
lines 225-226 add `gross_profit_calculated = revenue - cost_of_revenue`
whenever both operands were extracted (there is no check on `gross_profit`). -/
def extract_income_statement_generic (m : IncomeMatches) : IncomeData :=
  let base : IncomeData :=
    { revenue := extractField m.revenue
      gross_profit := extractField m.gross_profit
      operating_income := extractField m.operating_income
      net_income := extractField m.net_income
      cost_of_revenue := extractField m.cost_of_revenue
      research_development := extractField m.research_development
      selling_general_admin := extractField m.selling_general_admin }
  { base with
    gross_profit_calculated :=
      match base.revenue, base.cost_of_revenue with
      | some r, some c => some (r - c)
      | _, _ => none }

/-- Match lists for the eight balance-sheet fields of
`extract_balance_sheet_generic`. -/
structure BalanceMatches where
  total_assets : List (List String) := []
  total_liabilities : List (List String) := []
  cash : List (List String) := []
  accounts_receivable : List (List String) := []
  inventory : List (List String) := []
  property_plant_equipment : List (List String) := []
  total_debt : List (List String) := []
  accounts_payable : List (List String) := []

/-- The `balance_data` dict of `extract_balance_sheet_generic`. -/
structure BalanceData where
  total_assets : Option ℚ := none
  total_liabilities : Option ℚ := none
  cash : Option ℚ := none
  accounts_receivable : Option ℚ := none
  inventory : Option ℚ := none
  property_plant_equipment : Option ℚ := none
  total_debt : Option ℚ := none
  accounts_payable : Option ℚ := none
  total_equity : Option ℚ := none
deriving DecidableEq

/-- `Clear_Data.py` lines 231-294: same per-field loop; lines 289-290 derive
`total_equity = total_assets - total_liabilities` when both are present. -/
def extract_balance_sheet_generic (m : BalanceMatches) : BalanceData :=
  let base : BalanceData :=
    { total_assets := extractField m.total_assets
      total_liabilities := extractField m.total_liabilities
      cash := extractField m.cash
      accounts_receivable := extractField m.accounts_receivable
      inventory := extractField m.inventory
      property_plant_equipment := extractField m.property_plant_equipment
      total_debt := extractField m.total_debt
      accounts_payable := extractField m.accounts_payable }
  { base with
    total_equity :=
      match base.total_assets, base.total_liabilities with
      | some a, some l => some (a - l)
      | _, _ => none }

/-- Match lists for the five cash-flow fields of `extract_cash_flow_generic`. -/
structure CashFlowMatches where
  operating_cash_flow : List (List String) := []
  investing_cash_flow : List (List String) := []
  financing_cash_flow : List (List String) := []
  capital_expenditures : List (List String) := []
  free_cash_flow : List (List String) := []

/-- The `cash_flow_data` dict of `extract_cash_flow_generic`. -/
structure CashFlowData where
  operating_cash_flow : Option ℚ := none
  investing_cash_flow : Option ℚ := none
  financing_cash_flow : Option ℚ := none
  capital_expenditures : Option ℚ := none
  free_cash_flow : Option ℚ := none
  free_cash_flow_calculated : Option ℚ := none
deriving DecidableEq

/-- `Clear_Data.py` lines 296-348: same per-field loop; lines 343-344 derive
`free_cash_flow_calculated = operating_cash_flow + capital_expenditures` only
when `free_cash_flow` itself was not found. -/
def extract_cash_flow_generic (m : CashFlowMatches) : CashFlowData :=
  let base : CashFlowData :=
    { operating_cash_flow := extractField m.operating_cash_flow
      investing_cash_flow := extractField m.investing_cash_flow
      financing_cash_flow := extractField m.financing_cash_flow
      capital_expenditures := extractField m.capital_expenditures
      free_cash_flow := extractField m.free_cash_flow }
  { base with
    free_cash_flow_calculated :=
      match base.free_cash_flow with
      | some _ => none
      | none =>
        match base.operating_cash_flow, base.capital_expenditures with
        | some o, some c => some (o + c)
        | _, _ => none }

/-- The flat record assembled by `prepare_data_for_csv_generic`
(`Clear_Data.py` lines 375-394).  Every numeric field is total: the Python
dict stores a number for every key. -/
structure CsvData where
  ticker : String
  year : String
  quarter : String
  sector : String
  revenue : ℚ
  gross_profit : ℚ
  ebitda : ℚ
  net_income : ℚ
  total_assets : ℚ
  total_liabilities : ℚ
  total_debt : ℚ
  capex : ℚ
  free_cash_flow : ℚ
  operating_cash_flow : ℚ
  cogs : ℚ
  sga_expense : ℚ
  rd_expense : ℚ
  operating_income : ℚ
deriving DecidableEq

/-- `Clear_Data.py` lines 350-397: assembles the per-period record, reading
each metric with `dict.get(key, 0)` (missing metrics default to 0 here),
preferring directly-reported `gross_profit` and `free_cash_flow` over the
derived values, and taking the absolute value of capital expenditures. -/
def prepare_data_for_csv_generic (ticker : String)
    (fiscal_year fiscal_quarter : Option String)
    (inc : IncomeData) (bal : BalanceData) (cf : CashFlowData) : CsvData :=
  { ticker := ticker
    year := fiscal_year.getD ("2024")
    quarter := fiscal_quarter.getD ("Q1")
    sector := "Technology"
    revenue := inc.revenue.getD 0
    gross_profit := inc.gross_profit.getD (inc.gross_profit_calculated.getD 0)
    ebitda := inc.operating_income.getD 0
    net_income := inc.net_income.getD 0
    total_assets := bal.total_assets.getD 0
    total_liabilities := bal.total_liabilities.getD 0
    total_debt := bal.total_debt.getD 0
    capex := |cf.capital_expenditures.getD 0|
    free_cash_flow := cf.free_cash_flow.getD (cf.free_cash_flow_calculated.getD 0)
    operating_cash_flow := cf.operating_cash_flow.getD 0
    cogs := inc.cost_of_revenue.getD 0
    sga_expense := inc.selling_general_admin.getD 0
    rd_expense := inc.research_development.getD 0
    operating_income := inc.operating_income.getD 0 }

/-! ## Aquisição/Teste2.py: direct XBRL-tag search

`extract_values_direct_search` (lines 160-203).  For each tag alias in the
list, three tag-shape regexes are tried; the matches of each regex are
scanned and the first match that parses to a value with `abs(value) > 0.01`
is stored under the alias (the `break` only leaves the match loop, so a later
regex for the same alias overwrites, and every alias in the list is
processed).  The match lists per alias and regex are supplied as input. -/

/-- Cleaning and parsing of one tag text (lines 181-193): strip, skip if
empty, drop commas, recover a parenthesized negative, `float`. -/
def cleanParseTagText (s : String) : Option ℚ :=
  let t := ((s.data.dropWhile Char.isWhitespace).reverse.dropWhile Char.isWhitespace).reverse
  if t.isEmpty then none
  else
    let t := t.filter (fun c => c != ',')
    let neg := t.head? == some '(' && t.getLast? == some ')'
    let core := if neg then (t.drop 1).dropLast else t
    match pyFloatChars core with
    | none => none
    | some v => some (if neg then -v else v)

/-- The match loop for one regex (lines 179-201): first match that parses
with absolute value above `0.01` wins (a parsed value at or below the
threshold does not stop the scan). -/
def firstValid : List String → Option ℚ
  | [] => none
  | m :: rest =>
    match cleanParseTagText m with
    | some v => if 1 / 100 < |v| then some v else firstValid rest
    | none => firstValid rest

/-- The regex loop for one alias (lines 177-201): each regex with a valid
match overwrites `values[tag]`, so the last such regex determines the value. -/
def tagValue (pats : List (List String)) : Option ℚ :=
  pats.foldl
    (fun acc ms =>
      match firstValid ms with
      | some v => some v
      | none => acc)
    none

/-- Python dict assignment `values[tag] = v` on an insertion-ordered
association list. -/
def setKey (l : List (String × ℚ)) (k : String) (v : ℚ) : List (String × ℚ) :=
  match l with
  | [] => [(k, v)]
  | (k', v') :: rest => if k' = k then (k, v) :: rest else (k', v') :: setKey rest k v

/-- `extract_values_direct_search`: iterate over ALL tag aliases, storing one
value per alias that has a valid match. -/
def extract_values_direct_search (tags : List (String × List (List String))) :
    List (String × ℚ) :=
  tags.foldl
    (fun acc tp =>
      match tagValue tp.2 with
      | some v => setKey acc tp.1 v
      | none => acc)
    []

/-! ## Ratio engines

`Data_to_db.py` `calculate_financial_ratios` (lines 549-641) and
`get_data.py` `calculate_and_save_ratios` (lines 941-1045).  Both build every
denominator ratio as `numerator / denominator if denominator else 0`. -/

/-- Python `a / b if b else 0`. -/
def divOrZero (num den : ℚ) : ℚ :=
  if den = 0 then 0 else num / den

/-- The balance-sheet JSON keys read by `calculate_financial_ratios`
(`Data_to_db.py` lines 581-586); a key absent from the JSON is `none`. -/
structure BalanceJson where
  CurrentAssets : Option ℚ := none
  TotalCurrentAssets : Option ℚ := none
  CurrentLiabilities : Option ℚ := none
  TotalCurrentLiabilities : Option ℚ := none
  CashAndCashEquivalents : Option ℚ := none
  Inventory : Option ℚ := none
  AccountsReceivable : Option ℚ := none
  AccountsReceivableNet : Option ℚ := none
  TotalEquity : Option ℚ := none
  StockholdersEquity : Option ℚ := none
deriving DecidableEq

/-- `current_assets` binding, line 581. -/
def currentAssetsOf (b : BalanceJson) : ℚ :=
  b.CurrentAssets.getD (b.TotalCurrentAssets.getD 0)

/-- `current_liabilities` binding, line 582. -/
def currentLiabilitiesOf (b : BalanceJson) : ℚ :=
  b.CurrentLiabilities.getD (b.TotalCurrentLiabilities.getD 0)

/-- `cash` binding, line 583. -/
def cashOf (b : BalanceJson) : ℚ := b.CashAndCashEquivalents.getD 0

/-- `inventory` binding, line 584. -/
def inventoryOf (b : BalanceJson) : ℚ := b.Inventory.getD 0

/-- `receivables` binding, line 585. -/
def receivablesOf (b : BalanceJson) : ℚ :=
  b.AccountsReceivable.getD (b.AccountsReceivableNet.getD 0)

/-- `total_equity` binding, line 586. -/
def totalEquityOf (b : BalanceJson) : ℚ :=
  b.TotalEquity.getD (b.StockholdersEquity.getD 0)

/-- The `financial_statements` row columns consumed by
`calculate_financial_ratios` (lines 555-566). -/
structure FinRow where
  total_assets : ℚ
  total_liabilities : ℚ
  total_debt : ℚ
  revenue : ℚ
  gross_profit : ℚ
  net_income : ℚ
  operating_cash_flow : ℚ
  free_cash_flow : ℚ
deriving DecidableEq

/-- The computed ratio set shared by both ratio functions. -/
structure Ratios where
  current_ratio' : ℚ
  quick_ratio' : ℚ
  cash_ratio' : ℚ
  debt_to_equity : ℚ
  debt_to_assets : ℚ
  equity_multiplier : ℚ
  roe : ℚ
  roa : ℚ
  return_on_tangible_equity : ℚ
  gross_margin : ℚ
  operating_margin : ℚ
  net_margin : ℚ
  asset_turnover : ℚ
  inventory_turnover : ℚ
  receivables_turnover : ℚ
  operating_cash_flow_ratio' : ℚ
  free_cash_flow_margin : ℚ
  working_capital : ℚ
  net_debt : ℚ
deriving DecidableEq

/-- `Data_to_db.py` lines 588-623: the ratio dictionary for one row. -/
def calculate_financial_ratios (r : FinRow) (b : BalanceJson) : Ratios :=
  { current_ratio' := divOrZero (currentAssetsOf b) (currentLiabilitiesOf b)
    quick_ratio' := divOrZero (currentAssetsOf b - inventoryOf b) (currentLiabilitiesOf b)
    cash_ratio' := divOrZero (cashOf b) (currentLiabilitiesOf b)
    debt_to_equity := divOrZero r.total_debt (totalEquityOf b)
    debt_to_assets := divOrZero r.total_debt r.total_assets
    equity_multiplier := divOrZero r.total_assets (totalEquityOf b)
    roe := divOrZero r.net_income (totalEquityOf b)
    roa := divOrZero r.net_income r.total_assets
    return_on_tangible_equity := divOrZero r.net_income (totalEquityOf b)
    gross_margin := if r.revenue = 0 then 0 else r.gross_profit / r.revenue * 100
    operating_margin := if r.revenue = 0 then 0 else r.net_income / r.revenue * 100
    net_margin := if r.revenue = 0 then 0 else r.net_income / r.revenue * 100
    asset_turnover := divOrZero r.revenue r.total_assets
    inventory_turnover := divOrZero r.revenue (inventoryOf b)
    receivables_turnover := divOrZero r.revenue (receivablesOf b)
    operating_cash_flow_ratio' := divOrZero r.operating_cash_flow (currentLiabilitiesOf b)
    free_cash_flow_margin := if r.revenue = 0 then 0 else r.free_cash_flow / r.revenue * 100
    working_capital := currentAssetsOf b - currentLiabilitiesOf b
    net_debt := r.total_debt - cashOf b }

/-- The balance-sheet JSON keys read by `calculate_and_save_ratios`
(`get_data.py` lines 979-989). -/
structure BalanceJsonG where
  currentAssets : Option ℚ := none
  currentLiabilities : Option ℚ := none
  cashAndCashEquivalents : Option ℚ := none
  inventory : Option ℚ := none
  receivables : Option ℚ := none
  totalAssets : Option ℚ := none
  totalEquityGrossMinorityInterest : Option ℚ := none
  tangibleBookValue : Option ℚ := none
  totalDebt : Option ℚ := none
  workingCapital : Option ℚ := none
  netDebt : Option ℚ := none
deriving DecidableEq

/-- The `financial_statements` columns consumed by `calculate_and_save_ratios`
(lines 960-972). -/
structure FinRowG where
  revenue : ℚ
  gross_profit : ℚ
  ebitda : ℚ
  net_income : ℚ
  operating_cash_flow : ℚ
  free_cash_flow : ℚ
deriving DecidableEq

/-- `get_data.py` lines 991-1025: the ratio dictionary (`tangible_book_value`
falls back to `total_equity`, line 986). -/
def calculate_and_save_ratios (r : FinRowG) (b : BalanceJsonG) : Ratios :=
  let current_assets := b.currentAssets.getD 0
  let current_liabilities := b.currentLiabilities.getD 0
  let cash := b.cashAndCashEquivalents.getD 0
  let inventory := b.inventory.getD 0
  let receivables := b.receivables.getD 0
  let total_assets := b.totalAssets.getD 0
  let total_equity := b.totalEquityGrossMinorityInterest.getD 0
  let tangible_book_value := b.tangibleBookValue.getD total_equity
  let total_debt := b.totalDebt.getD 0
  { current_ratio' := divOrZero current_assets current_liabilities
    quick_ratio' := divOrZero (current_assets - inventory) current_liabilities
    cash_ratio' := divOrZero cash current_liabilities
    debt_to_equity := divOrZero total_debt total_equity
    debt_to_assets := divOrZero total_debt total_assets
    equity_multiplier := divOrZero total_assets total_equity
    roe := divOrZero r.net_income total_equity
    roa := divOrZero r.net_income total_assets
    return_on_tangible_equity := divOrZero r.net_income tangible_book_value
    gross_margin := if r.revenue = 0 then 0 else r.gross_profit / r.revenue * 100
    operating_margin := if r.revenue = 0 then 0 else r.ebitda / r.revenue * 100
    net_margin := if r.revenue = 0 then 0 else r.net_income / r.revenue * 100
    asset_turnover := divOrZero r.revenue total_assets
    inventory_turnover := divOrZero r.revenue inventory
    receivables_turnover := divOrZero r.revenue receivables
    operating_cash_flow_ratio' := divOrZero r.operating_cash_flow current_liabilities
    free_cash_flow_margin := if r.revenue = 0 then 0 else r.free_cash_flow / r.revenue * 100
    working_capital := b.workingCapital.getD 0
    net_debt := b.netDebt.getD 0 }

/-! ## Teste2.py (repository root): fiscal-period reconciliation

`extract_quarterly_data` (lines 25-46) filters a metric's facts to 10-Q/10-K
forms and sorts them descending by the pair `(end, filed)` with Python's
stable sort.  `process_company` (lines 250-331) then groups the facts by
fiscal year, keeps for each `(fiscal_year, fiscal_period)` key the fact with
the strictly greater `filed` date (`filed > stored['filed']`, a comparison
that raises `TypeError` when either side is `None`), and emits per year a
YTD row for the latest quarter, one row per quarter (subtracting the
predecessor quarter's year-to-date value when both values are truthy), and a
full-year row, up to `NUM_QUARTERS` quarterly rows. -/

/-- Fiscal period strings `Q1`..`Q4`, `FY` used as grouping keys. -/
inductive Period where
  | Q1 | Q2 | Q3 | Q4 | FY
deriving DecidableEq

/-- One raw fact of the SEC companyfacts JSON for one metric: form type,
fiscal year (`0` models a falsy/absent `fy`), fiscal period (`fp`), period
end date (`""` models a falsy/absent `end`), filing date (`none` models an
absent `filed`), and the reported value. -/
structure Fact where
  form : String
  fy : Nat
  fp : Period
  endDate : String
  filed : Option String
  val : ℚ
deriving DecidableEq

/-- Sort key of line 42: `(x.get('end', ''), x.get('filed', ''))`. -/
def sortKey (f : Fact) : String × String :=
  (f.endDate, f.filed.getD (""))

/-- Lexicographic strict order on the sort keys, Python tuple comparison. -/
def keyLt (a b : String × String) : Prop :=
  a.1 < b.1 ∨ (a.1 = b.1 ∧ a.2 < b.2)

instance (a b : String × String) : Decidable (keyLt a b) := by
  unfold keyLt; infer_instance

/-- Stable descending insertion: `f` goes before the first element whose key
is not greater than `f`'s (equal keys keep the earlier element first, the
behavior of CPython's stable sort with `reverse=True`). -/
def insFact (f : Fact) : List Fact → List Fact
  | [] => [f]
  | g :: l => if ¬ keyLt (sortKey f) (sortKey g) then f :: g :: l else g :: insFact f l

/-- Stable descending sort by `(end, filed)`, line 42. -/
def sortFactsDesc : List Fact → List Fact
  | [] => []
  | f :: l => insFact f (sortFactsDesc l)

/-- `extract_quarterly_data` (lines 25-46): keep 10-Q/10-K facts, sort
descending by `(end, filed)`. -/
def extract_quarterly_data (items : List Fact) : List Fact :=
  sortFactsDesc (items.filter (fun f => f.form = "10-Q" ∨ f.form = "10-K"))

/-- The stored per-key dict `{'value', 'end_date', 'filed', 'fp'}`
(lines 268-273). -/
structure Entry where
  value : ℚ
  endDate : String
  filed : Option String
  fp : Period
deriving DecidableEq

/-- The stored entry for a fact. -/
def entryOfFact (f : Fact) : Entry :=
  ⟨f.val, f.endDate, f.filed, f.fp⟩

/-- The per-year dict `fiscal_years[fy]`, keyed by `'Q1'..'Q4','FY'`. -/
structure YearData where
  q1 : Option Entry := none
  q2 : Option Entry := none
  q3 : Option Entry := none
  q4 : Option Entry := none
  fyE : Option Entry := none
deriving DecidableEq

/-- Read the slot of a period key. -/
def YearData.slot (yd : YearData) : Period → Option Entry
  | .Q1 => yd.q1
  | .Q2 => yd.q2
  | .Q3 => yd.q3
  | .Q4 => yd.q4
  | .FY => yd.fyE

/-- Write the slot of a period key. -/
def YearData.setSlot (yd : YearData) : Period → Entry → YearData
  | .Q1, e => { yd with q1 := some e }
  | .Q2, e => { yd with q2 := some e }
  | .Q3, e => { yd with q3 := some e }
  | .Q4, e => { yd with q4 := some e }
  | .FY, e => { yd with fyE := some e }

/-- The only error the modelled code can raise: Python `TypeError` from
comparing `None` with a string (line 267, `filed > ...`). -/
inductive PyErr where
  | typeError
deriving DecidableEq

/-- Python `filed > stored_filed` on possibly-`None` operands: a `TypeError`
unless both are strings, otherwise strict lexicographic comparison. -/
def pyStrGtOpt : Option String → Option String → Except PyErr Bool
  | some a, some b => .ok (decide (b < a))
  | _, _ => .error .typeError

/-- Line 267: keep the stored entry unless the new fact's `filed` is strictly
greater. -/
def updSlot (slot : Option Entry) (f : Fact) : Except PyErr Entry :=
  match slot with
  | none => .ok (entryOfFact f)
  | some old =>
    (pyStrGtOpt f.filed old.filed).map (fun b => if b then entryOfFact f else old)

/-- Update the association list `fiscal_years` at `f.fy` (lines 262-273). -/
def updateYears (f : Fact) : List (Nat × YearData) → Except PyErr (List (Nat × YearData))
  | [] => .ok [(f.fy, YearData.setSlot {} f.fp (entryOfFact f))]
  | (y, yd) :: rest =>
    if y = f.fy then
      (updSlot (yd.slot f.fp) f).map (fun e => (y, yd.setSlot f.fp e) :: rest)
    else
      (updateYears f rest).map (fun m => (y, yd) :: m)

/-- The grouping loop of lines 252-273: facts with falsy `fy` or `end` are
skipped; the rest update their `(fy, fp)` slot. -/
def buildYears (facts : List Fact) : Except PyErr (List (Nat × YearData)) :=
  facts.foldlM
    (fun m f => if f.fy = 0 ∨ f.endDate = "" then .ok m else updateYears f m)
    []

/-- Descending insertion for year numbers. -/
def insNatDesc (n : Nat) : List Nat → List Nat
  | [] => [n]
  | m :: l => if m ≤ n then n :: m :: l else m :: insNatDesc n l

/-- `sorted(fiscal_years.keys(), reverse=True)`, line 275. -/
def sortNatDesc : List Nat → List Nat
  | [] => []
  | n :: l => insNatDesc n (sortNatDesc l)

/-- Lookup of `fiscal_years[fy]` (every key produced by `buildYears` is
present; the empty default is never reached in the pipeline). -/
def lookupYD : List (Nat × YearData) → Nat → YearData
  | [], _ => {}
  | (y, yd) :: rest, n => if y = n then yd else lookupYD rest n

/-- `value_type` of the inserted row. -/
inductive VType where
  | YTD | Quarterly | FullYear
deriving DecidableEq

/-- One row handed to `insert_data` (the per-company constant columns are
omitted). -/
structure Row where
  fy : Nat
  fp : Period
  vtype : VType
  value : ℚ
  endDate : String
  filed : Option String
deriving DecidableEq

/-- `NUM_QUARTERS = 8`, line 6. -/
def NUM_QUARTERS : Nat := 8

/-- Lines 287-291: the latest quarter present in the year, scanning
`['Q4', 'Q3', 'Q2', 'Q1']`. -/
def latestQ (yd : YearData) : Option Period :=
  if yd.q4.isSome then some .Q4
  else if yd.q3.isSome then some .Q3
  else if yd.q2.isSome then some .Q2
  else if yd.q1.isSome then some .Q1
  else none

/-- The predecessor-quarter map of line 311
(`{'Q4': 'Q3', 'Q3': 'Q2', 'Q2': 'Q1', 'Q1': None}`). -/
def predQ : Period → Option Period
  | .Q4 => some .Q3
  | .Q3 => some .Q2
  | .Q2 => some .Q1
  | .Q1 => none
  | .FY => none

/-- Lines 308-320: the quarterly row for quarter `q` with stored entry `e`.
The year-to-date value is replaced by `value - prev_value` only when the
predecessor quarter is present and BOTH values are truthy (non-zero). -/
def quarterRow (fy : Nat) (yd : YearData) (q : Period) (e : Entry) : Row :=
  let qv := e.value
  let qv :=
    match predQ q with
    | some pq =>
      match yd.slot pq with
      | some pe => if pe.value ≠ 0 ∧ qv ≠ 0 then qv - pe.value else qv
      | none => qv
    | none => qv
  ⟨fy, q, .Quarterly, qv, e.endDate, e.filed⟩

/-- The inner quarter loop of lines 303-322 over `['Q4', 'Q3', 'Q2', 'Q1']`,
stopping once `quarters_shown` reaches `NUM_QUARTERS`; returns the emitted
rows and the updated counter. -/
def emitQuarters (fy : Nat) (yd : YearData) : List Period → Nat → List Row × Nat
  | [], qs => ([], qs)
  | q :: rest, qs =>
    if NUM_QUARTERS ≤ qs then ([], qs)
    else
      match yd.slot q with
      | none => emitQuarters fy yd rest qs
      | some e =>
        let p := emitQuarters fy yd rest (qs + 1)
        (quarterRow fy yd q e :: p.1, p.2)

/-- The scanning order of lines 288 and 303. -/
def quarterOrder : List Period := [.Q4, .Q3, .Q2, .Q1]

/-- The year loop of lines 279-331: for each fiscal year (most recent first)
emit the one-off YTD row for the latest quarter, the quarterly rows, and the
full-year row when present and the quarter budget is not exhausted. -/
def processYears : List Nat → List (Nat × YearData) → Nat → Bool → List Row
  | [], _, _, _ => []
  | y :: rest, m, qs, ytdShown =>
    if NUM_QUARTERS ≤ qs then []
    else
      let yd := lookupYD m y
      let ytdPart : List Row × Bool :=
        if ytdShown then ([], true)
        else
          match latestQ yd with
          | some q =>
            match yd.slot q with
            | some e => ([⟨y, q, .YTD, e.value, e.endDate, e.filed⟩], true)
            | none => ([], false)
          | none => ([], false)
      let qPart := emitQuarters y yd quarterOrder qs
      let fyPart : List Row :=
        match yd.fyE with
        | some e => if qPart.2 < NUM_QUARTERS then [⟨y, .FY, .FullYear, e.value, e.endDate, e.filed⟩] else []
        | none => []
      ytdPart.1 ++ qPart.1 ++ fyPart ++ processYears rest m qPart.2 ytdPart.2

/-- The whole per-metric pipeline of `process_company` (lines 245-331) for
one metric: filter and sort the facts, group and tie-break them, then emit
the reconciled rows. -/
def process_metric (items : List Fact) : Except PyErr (List Row) :=
  match buildYears (extract_quarterly_data items) with
  | .error e => .error e
  | .ok m => .ok (processYears (sortNatDesc (m.map Prod.fst)) m 0 false)

/-- The value that survives for one metric after `extract_financial_data_robust`
(`Aquisição/Teste2.py` lines 229-245) turns every matched alias into a data
point with the same `context_ref` key, and `save_to_database` (lines 417-427)
runs `INSERT OR REPLACE` against the `UNIQUE(..., context_ref)` constraint
(line 103): the last inserted data point, i.e. the last matching alias. -/
def save_metric_value (tags : List (String × List (List String))) : Option ℚ :=
  ((extract_values_direct_search tags).map Prod.snd).getLast?

/-! ## Concrete inputs used by the claim theorems. -/

/-- Quarterly-decomposition example: YTD facts 100, 250, 400 and the annual
total 500 reported for the Q4 period of fiscal year 2023. -/
def c1Facts : List Fact :=
  [ ⟨"10-Q", 2023, .Q1, "2023-03-31", some ("2023-05-01"), 100⟩
  , ⟨"10-Q", 2023, .Q2, "2023-06-30", some ("2023-08-01"), 250⟩
  , ⟨"10-Q", 2023, .Q3, "2023-09-30", some ("2023-11-01"), 400⟩
  , ⟨"10-K", 2023, .Q4, "2023-12-31", some ("2024-02-01"), 500⟩ ]

/-- The rows the pipeline emits for `c1Facts`. -/
def c1Rows : List Row :=
  [ ⟨2023, .Q4, .YTD, 500, "2023-12-31", some ("2024-02-01")⟩
  , ⟨2023, .Q4, .Quarterly, 100, "2023-12-31", some ("2024-02-01")⟩
  , ⟨2023, .Q3, .Quarterly, 150, "2023-09-30", some ("2023-11-01")⟩
  , ⟨2023, .Q2, .Quarterly, 150, "2023-06-30", some ("2023-08-01")⟩
  , ⟨2023, .Q1, .Quarterly, 100, "2023-03-31", some ("2023-05-01")⟩ ]

/-- A fiscal year whose Q2 year-to-date value is zero while Q1 is 100. -/
def c1xFacts : List Fact :=
  [ ⟨"10-Q", 2023, .Q1, "2023-03-31", some ("2023-05-01"), 100⟩
  , ⟨"10-Q", 2023, .Q2, "2023-06-30", some ("2023-08-01"), 0⟩ ]

/-- A Q2 fact whose predecessor Q1 is missing from the fiscal year. -/
def c2Facts : List Fact :=
  [ ⟨"10-Q", 2023, .Q2, "2023-06-30", some ("2023-08-01"), 250⟩ ]

/-- Two duplicate facts for one key, filed 2023-01-01 (value 10) and
2023-04-01 (value 12). -/
def c3Facts : List Fact :=
  [ ⟨"10-Q", 2023, .Q1, "2023-03-31", some ("2023-01-01"), 10⟩
  , ⟨"10-Q", 2023, .Q1, "2023-03-31", some ("2023-04-01"), 12⟩ ]

/-- Two duplicate facts for one key, both without a `filed` date. -/
def c3xFacts : List Fact :=
  [ ⟨"10-Q", 2023, .Q1, "2023-03-31", none, 10⟩
  , ⟨"10-Q", 2023, .Q1, "2023-03-31", none, 12⟩ ]

/-- A duplicate fact pair sharing the same `(end, filed)` sort key with
different values. -/
def c9a : Fact := ⟨"10-Q", 2023, .Q1, "2023-03-31", some ("2023-05-01"), 10⟩

/-- The second fact of the shared-sort-key pair. -/
def c9b : Fact := ⟨"10-Q", 2023, .Q1, "2023-03-31", some ("2023-05-01"), 12⟩

/-- Two facts with distinct sort keys, for the permutation witness. -/
def c9c : Fact := ⟨"10-Q", 2023, .Q2, "2023-06-30", some ("2023-08-01"), 30⟩

/-- Two aliases of one metric, both with a valid match in the content. -/
def c6Tags : List (String × List (List String)) :=
  [ ("RevenueFromContractWithCustomerExcludingAssessedTax", [[("5000")]])
  , ("Revenues", [[("7000")]]) ]

/-- Extraction matches where revenue, cost of revenue AND gross profit are
all directly reported. -/
def c8m : IncomeMatches :=
  { revenue := [[("5000")]]
    cost_of_revenue := [[("2000")]]
    gross_profit := [[("1800")]] }

/-! ## Order facts about the sort key, used for the permutation analysis. -/

/-- `keyGe f g` says `f` may legitimately precede `g` in the descending
sort: `g`'s key is not greater. -/
def keyGe (f g : Fact) : Prop :=
  ¬ keyLt (sortKey f) (sortKey g)

/-- Strictly descending adjacent keys. -/
def keyGtRel (f g : Fact) : Prop :=
  keyLt (sortKey g) (sortKey f)

/-! ## Helper lemmas: the descending stable sort and permutations. -/

/-- `keyLt` is irreflexive. -/
theorem keyLt_irrefl (a : String × String) : ¬ keyLt a a := by
  rintro (h | ⟨-, h⟩) <;> exact lt_irrefl _ h

/-- `keyLt` is asymmetric. -/
theorem keyLt_asymm {a b : String × String} (h : keyLt a b) : ¬ keyLt b a := by
  rcases h with h | ⟨he, h⟩
  · rintro (h' | ⟨he', -⟩)
    · exact lt_asymm h h'
    · exact absurd (he' ▸ h) (lt_irrefl _)
  · rintro (h' | ⟨-, h'⟩)
    · exact absurd (he ▸ h') (lt_irrefl _)
    · exact lt_asymm h h'

/-- `keyLt` is transitive. -/
theorem keyLt_trans {a b c : String × String} (h1 : keyLt a b) (h2 : keyLt b c) :
    keyLt a c := by
  rcases h1 with h1 | ⟨e1, h1⟩ <;> rcases h2 with h2 | ⟨e2, h2⟩
  · exact Or.inl (lt_trans h1 h2)
  · exact Or.inl (e2 ▸ h1)
  · exact Or.inl (e1 ▸ h2)
  · exact Or.inr ⟨e1.trans e2, lt_trans h1 h2⟩

/-- Keys that are not strictly ordered either way are equal. -/
theorem keyLt_connex {a b : String × String} (h1 : ¬ keyLt a b) (h2 : ¬ keyLt b a) :
    a = b := by
  rcases lt_trichotomy a.1 b.1 with h | h | h
  · exact absurd (Or.inl h) h1
  · rcases lt_trichotomy a.2 b.2 with h' | h' | h'
    · exact absurd (Or.inr ⟨h, h'⟩) h1
    · exact Prod.ext h h'
    · exact absurd (Or.inr ⟨h.symm, h'⟩) h2
  · exact absurd (Or.inl h) h2

/-- `keyGe` is transitive. -/
theorem keyGe_trans {f g h : Fact} (h1 : keyGe f g) (h2 : keyGe g h) : keyGe f h := by
  intro h3
  by_cases hc : keyLt (sortKey g) (sortKey f)
  · exact h2 (keyLt_trans hc h3)
  · exact h2 ((keyLt_connex h1 hc) ▸ h3)

/-- Non-strictly descending plus distinct keys gives strictly descending. -/
theorem keyGtRel_of_ge_ne {f g : Fact} (h1 : keyGe f g) (h2 : sortKey f ≠ sortKey g) :
    keyGtRel f g := by
  by_cases hc : keyLt (sortKey g) (sortKey f)
  · exact hc
  · exact absurd (keyLt_connex h1 hc) h2

/-- Inserting permutes to consing. -/
theorem insFact_perm (f : Fact) (l : List Fact) : (insFact f l).Perm (f :: l) := by
  induction l with
  | nil => exact List.Perm.refl _
  | cons g l ih =>
    by_cases hc : keyLt (sortKey f) (sortKey g)
    · simpa [insFact, hc] using ((ih.cons g).trans (List.Perm.swap f g l))
    · simp [insFact, hc]

/-- The sort permutes its input. -/
theorem sortFactsDesc_perm (l : List Fact) : (sortFactsDesc l).Perm l := by
  induction l with
  | nil => exact List.Perm.refl _
  | cons f l ih => exact (insFact_perm f (sortFactsDesc l)).trans (ih.cons f)

/-- Inserting preserves the descending invariant. -/
theorem insFact_pairwise {f : Fact} {l : List Fact} (h : l.Pairwise keyGe) :
    (insFact f l).Pairwise keyGe := by
  induction l with
  | nil => simp [insFact, keyGe]
  | cons g l ih =>
    by_cases hc : keyLt (sortKey f) (sortKey g)
    · have tail : (insFact f l).Pairwise keyGe := ih h.of_cons
      have head : ∀ x ∈ insFact f l, keyGe g x := by
        intro x hx
        rcases List.mem_cons.mp ((insFact_perm f l).mem_iff.mp hx) with rfl | hx
        · exact keyLt_asymm hc
        · exact List.rel_of_pairwise_cons h hx
      simpa [insFact, hc] using List.Pairwise.cons head tail
    · have hfg : keyGe f g := hc
      have head : ∀ x ∈ g :: l, keyGe f x := by
        intro x hx
        rcases List.mem_cons.mp hx with rfl | hx
        · exact hfg
        · exact keyGe_trans hfg (List.rel_of_pairwise_cons h hx)
      simpa [insFact, hc] using List.Pairwise.cons head h

/-- The sort output is non-strictly descending in the keys. -/
theorem sortFactsDesc_pairwise (l : List Fact) : (sortFactsDesc l).Pairwise keyGe := by
  induction l with
  | nil => simp [sortFactsDesc]
  | cons f l ih => exact insFact_pairwise ih

/-- Two strictly descending permutations of each other are equal. -/
theorem eq_of_perm_strictDesc :
    ∀ {s1 s2 : List Fact}, s1.Perm s2 → s1.Pairwise keyGtRel → s2.Pairwise keyGtRel →
      s1 = s2 := by
  intro s1
  induction s1 with
  | nil => intro s2 hp _ _; exact (hp.nil_eq)
  | cons a t1 ih =>
    intro s2 hp h1 h2
    cases s2 with
    | nil => exact absurd (hp.eq_nil) (by simp)
    | cons b t2 =>
      have hab : a = b := by
        have ha : a ∈ b :: t2 := hp.mem_iff.mp (List.mem_cons_self a t1)
        rcases List.mem_cons.mp ha with h | ha2
        · exact h
        · have hba : keyGtRel b a := List.rel_of_pairwise_cons h2 ha2
          have hb : b ∈ a :: t1 := hp.symm.mem_iff.mp (List.mem_cons_self b t2)
          rcases List.mem_cons.mp hb with h | hb2
          · exact absurd hba (h ▸ keyLt_irrefl _)
          · exact absurd hba (keyLt_asymm (List.rel_of_pairwise_cons h1 hb2))
      subst hab
      rw [ih (hp.cons_inv) h1.of_cons h2.of_cons]

/-- The modelled stable sort is permutation-invariant as soon as no two facts
share a sort key. -/
theorem sortFactsDesc_eq_of_perm {l l' : List Fact} (hp : l.Perm l')
    (hnd : l.Pairwise (fun f g => sortKey f ≠ sortKey g)) :
    sortFactsDesc l = sortFactsDesc l' := by
  have hsymm : ∀ {x y : Fact}, sortKey x ≠ sortKey y → sortKey y ≠ sortKey x :=
    fun h => Ne.symm h
  have hnd' := (hp.pairwise_iff hsymm).mp hnd
  have pnd1 := ((sortFactsDesc_perm l).pairwise_iff hsymm).mpr hnd
  have pnd2 := ((sortFactsDesc_perm l').pairwise_iff hsymm).mpr hnd'
  have strict1 : (sortFactsDesc l).Pairwise keyGtRel :=
    ((sortFactsDesc_pairwise l).and pnd1).imp (fun h => keyGtRel_of_ge_ne h.1 h.2)
  have strict2 : (sortFactsDesc l').Pairwise keyGtRel :=
    ((sortFactsDesc_pairwise l').and pnd2).imp (fun h => keyGtRel_of_ge_ne h.1 h.2)
  exact eq_of_perm_strictDesc
    (((sortFactsDesc_perm l).trans hp).trans (sortFactsDesc_perm l').symm)
    strict1 strict2

/-- Permutation invariance of the filtered-and-sorted fact list under
pairwise distinct sort keys. -/
theorem extract_quarterly_data_eq_of_perm {l l' : List Fact} (hp : l.Perm l')
    (hnd : l.Pairwise (fun f g => sortKey f ≠ sortKey g)) :
    extract_quarterly_data l = extract_quarterly_data l' :=
  sortFactsDesc_eq_of_perm (hp.filter _)
    (List.Pairwise.sublist (List.filter_sublist l) hnd)

/-! ## Claim theorems. -/

/-- C5 (confirmed): scale normalization multiplies a value by 1,000,000
exactly when it lies strictly between 0 and 1000, and leaves it unchanged
otherwise; the literal "1.5" extracts to 1,500,000 and the literal "1500"
stays 1500. -/
theorem C5_scale_heuristic :
    (∀ v : ℚ, 0 < v → v < 1000 → normalizeScale v = v * 1000000)
    ∧ (∀ v : ℚ, ¬ (0 < v ∧ v < 1000) → normalizeScale v = v)
    ∧ extractField [[("1.5")]] = some 1500000
    ∧ extractField [[("1500")]] = some 1500 := by
  refine ⟨?_, ?_, ?_, ?_⟩
  · intro v h1 h2
    simp [normalizeScale, h1, h2]
  · intro v h
    rw [normalizeScale, if_neg]
    tauto
  · simp [extractField, tryPatternMatches, dropCommas, pyFloat, pyFloatChars,
      decDigits, normalizeScale]
    norm_num
  · simp [extractField, tryPatternMatches, dropCommas, pyFloat, pyFloatChars,
      decDigits, normalizeScale]
    norm_num

/-- Witness for C5 at `v = 3/2`. -/
theorem C5_scale_heuristic_witness :
    normalizeScale (3 / 2) = 3 / 2 * 1000000 :=
  C5_scale_heuristic.1 (3 / 2) (by norm_num) (by norm_num)

/-- C10 (confirmed): in the free-text path, the value of a successful
pattern always comes from the LAST match in document order
(`matches[-1]`), and the same selection loop is what defines every field of
the income-statement, balance-sheet and cash-flow extractors. -/
theorem C10_last_match_selected :
    (∀ (ms : List String) (rest : List (List String)) (s : String) (v : ℚ),
        ms.getLast? = some s → pyFloat (dropCommas s) = some v →
        extractField (ms :: rest) = some (normalizeScale v))
    ∧ (∀ m : IncomeMatches,
        (extract_income_statement_generic m).revenue = extractField m.revenue)
    ∧ (∀ m : BalanceMatches,
        (extract_balance_sheet_generic m).total_assets = extractField m.total_assets)
    ∧ (∀ m : CashFlowMatches,
        (extract_cash_flow_generic m).operating_cash_flow =
          extractField m.operating_cash_flow) := by
  refine ⟨?_, fun m => rfl, fun m => rfl, fun m => rfl⟩
  intro ms rest s v h1 h2
  simp [extractField, tryPatternMatches, h1, h2]

/-- Witness for C10: with two matches the value comes from "2000", not
"100". -/
theorem C10_last_match_selected_witness :
    extractField [[("100"), ("2000")]] = some 2000 := by
  have h2 : normalizeScale 2000 = 2000 := by
    rw [normalizeScale, if_neg]
    norm_num
  have h := C10_last_match_selected.1 [("100"), ("2000")] [] ("2000") 2000
    (by simp)
    (by simp [pyFloat, pyFloatChars, dropCommas, decDigits])
  rw [h2] at h
  exact h

/-- C4 (confirmed): every denominator ratio of both ratio functions equals
numerator / denominator when the denominator is non-zero and equals 0 when
the denominator is zero or its source keys are absent; in particular zero
current liabilities give a zero current ratio.  The embedding is a total
function, mirroring that the guarded Python expressions never divide by
zero. -/
theorem C4_ratio_division_semantics :
    (∀ num den : ℚ, den ≠ 0 → divOrZero num den = num / den)
    ∧ (∀ num den : ℚ, den = 0 → divOrZero num den = 0)
    ∧ (∀ (r : FinRow) (b : BalanceJson), currentLiabilitiesOf b = 0 →
        (calculate_financial_ratios r b).current_ratio' = 0
        ∧ (calculate_financial_ratios r b).quick_ratio' = 0
        ∧ (calculate_financial_ratios r b).cash_ratio' = 0
        ∧ (calculate_financial_ratios r b).operating_cash_flow_ratio' = 0)
    ∧ (∀ (r : FinRow) (b : BalanceJson), currentLiabilitiesOf b ≠ 0 →
        (calculate_financial_ratios r b).current_ratio' =
          currentAssetsOf b / currentLiabilitiesOf b
        ∧ (calculate_financial_ratios r b).quick_ratio' =
          (currentAssetsOf b - inventoryOf b) / currentLiabilitiesOf b
        ∧ (calculate_financial_ratios r b).cash_ratio' =
          cashOf b / currentLiabilitiesOf b
        ∧ (calculate_financial_ratios r b).operating_cash_flow_ratio' =
          r.operating_cash_flow / currentLiabilitiesOf b)
    ∧ (∀ (r : FinRow) (b : BalanceJson), totalEquityOf b = 0 →
        (calculate_financial_ratios r b).debt_to_equity = 0
        ∧ (calculate_financial_ratios r b).equity_multiplier = 0
        ∧ (calculate_financial_ratios r b).roe = 0
        ∧ (calculate_financial_ratios r b).return_on_tangible_equity = 0)
    ∧ (∀ (r : FinRow) (b : BalanceJson), totalEquityOf b ≠ 0 →
        (calculate_financial_ratios r b).debt_to_equity = r.total_debt / totalEquityOf b
        ∧ (calculate_financial_ratios r b).equity_multiplier =
          r.total_assets / totalEquityOf b
        ∧ (calculate_financial_ratios r b).roe = r.net_income / totalEquityOf b)
    ∧ (∀ (r : FinRow) (b : BalanceJson), r.total_assets = 0 →
        (calculate_financial_ratios r b).debt_to_assets = 0
        ∧ (calculate_financial_ratios r b).roa = 0
        ∧ (calculate_financial_ratios r b).asset_turnover = 0)
    ∧ (∀ (r : FinRow) (b : BalanceJson), r.total_assets ≠ 0 →
        (calculate_financial_ratios r b).debt_to_assets = r.total_debt / r.total_assets
        ∧ (calculate_financial_ratios r b).roa = r.net_income / r.total_assets
        ∧ (calculate_financial_ratios r b).asset_turnover = r.revenue / r.total_assets)
    ∧ (∀ (r : FinRow) (b : BalanceJson), r.revenue = 0 →
        (calculate_financial_ratios r b).gross_margin = 0
        ∧ (calculate_financial_ratios r b).operating_margin = 0
        ∧ (calculate_financial_ratios r b).net_margin = 0
        ∧ (calculate_financial_ratios r b).free_cash_flow_margin = 0)
    ∧ (∀ (r : FinRow) (b : BalanceJson), r.revenue ≠ 0 →
        (calculate_financial_ratios r b).gross_margin = r.gross_profit / r.revenue * 100
        ∧ (calculate_financial_ratios r b).net_margin = r.net_income / r.revenue * 100
        ∧ (calculate_financial_ratios r b).free_cash_flow_margin =
          r.free_cash_flow / r.revenue * 100)
    ∧ (∀ (r : FinRow) (b : BalanceJson),
        (inventoryOf b = 0 → (calculate_financial_ratios r b).inventory_turnover = 0)
        ∧ (inventoryOf b ≠ 0 →
          (calculate_financial_ratios r b).inventory_turnover = r.revenue / inventoryOf b)
        ∧ (receivablesOf b = 0 →
          (calculate_financial_ratios r b).receivables_turnover = 0)
        ∧ (receivablesOf b ≠ 0 →
          (calculate_financial_ratios r b).receivables_turnover =
            r.revenue / receivablesOf b))
    ∧ (∀ (r : FinRow) (b : BalanceJson), b.CurrentLiabilities = none →
        b.TotalCurrentLiabilities = none →
        (calculate_financial_ratios r b).current_ratio' = 0)
    ∧ (∀ (r : FinRowG) (b : BalanceJsonG), b.currentLiabilities.getD 0 = 0 →
        (calculate_and_save_ratios r b).current_ratio' = 0
        ∧ (calculate_and_save_ratios r b).quick_ratio' = 0
        ∧ (calculate_and_save_ratios r b).cash_ratio' = 0
        ∧ (calculate_and_save_ratios r b).operating_cash_flow_ratio' = 0)
    ∧ (∀ (r : FinRowG) (b : BalanceJsonG), b.currentLiabilities.getD 0 ≠ 0 →
        (calculate_and_save_ratios r b).current_ratio' =
          b.currentAssets.getD 0 / b.currentLiabilities.getD 0)
    ∧ (∀ (r : FinRowG) (b : BalanceJsonG), b.currentLiabilities = none →
        (calculate_and_save_ratios r b).current_ratio' = 0)
    ∧ (∀ (r : FinRowG) (b : BalanceJsonG), r.revenue = 0 →
        (calculate_and_save_ratios r b).gross_margin = 0
        ∧ (calculate_and_save_ratios r b).operating_margin = 0
        ∧ (calculate_and_save_ratios r b).net_margin = 0
        ∧ (calculate_and_save_ratios r b).free_cash_flow_margin = 0)
    ∧ (∀ (r : FinRowG) (b : BalanceJsonG), r.revenue ≠ 0 →
        (calculate_and_save_ratios r b).gross_margin = r.gross_profit / r.revenue * 100
        ∧ (calculate_and_save_ratios r b).operating_margin =
          r.ebitda / r.revenue * 100) := by
  refine ⟨?_, ?_, ?_, ?_, ?_, ?_, ?_, ?_, ?_, ?_, ?_, ?_, ?_, ?_, ?_, ?_, ?_⟩ <;>
    intros <;>
    simp_all [calculate_financial_ratios, calculate_and_save_ratios, divOrZero,
      currentLiabilitiesOf]

/-- Witness for C4: zero current liabilities give a zero current ratio. -/
theorem C4_ratio_division_semantics_witness :
    (calculate_financial_ratios ⟨1, 1, 1, 1, 1, 1, 1, 1⟩
      { CurrentLiabilities := some 0 }).current_ratio' = 0 :=
  (C4_ratio_division_semantics.2.2.1 ⟨1, 1, 1, 1, 1, 1, 1, 1⟩
    { CurrentLiabilities := some 0 } (by simp [currentLiabilitiesOf])).1

/-- C7 counterexample: with no matching pattern at all, `revenue` is absent
from the extraction dict, yet the assembled CSV record stores `0` for it —
the record does not leave the metric absent, and the defaulting happens at
record assembly, not only in the ratio engine. -/
theorem C7_counterexample :
    (extract_income_statement_generic {}).revenue = none
    ∧ (prepare_data_for_csv_generic ("ACME") none none
        (extract_income_statement_generic {}) (extract_balance_sheet_generic {})
        (extract_cash_flow_generic {})).revenue = 0 := by
  constructor
  · rfl
  · rfl

/-- C7 (corrected): metrics without a match stay absent in the per-statement
extraction dicts, but `prepare_data_for_csv_generic` already defaults every
missing metric to 0 when assembling the flat record (`dict.get(key, 0)`),
in addition to the ratio engine's own zero-defaulting. -/
theorem C7_absent_metrics_amended :
    (∀ m : IncomeMatches, extractField m.revenue = none →
        (extract_income_statement_generic m).revenue = none)
    ∧ (∀ m : IncomeMatches, extractField m.net_income = none →
        (extract_income_statement_generic m).net_income = none)
    ∧ (∀ m : BalanceMatches, extractField m.total_assets = none →
        (extract_balance_sheet_generic m).total_assets = none)
    ∧ (∀ (t : String) (y q : Option String) (inc : IncomeData) (bal : BalanceData)
        (cf : CashFlowData), inc.revenue = none →
        (prepare_data_for_csv_generic t y q inc bal cf).revenue = 0)
    ∧ (∀ (t : String) (y q : Option String) (inc : IncomeData) (bal : BalanceData)
        (cf : CashFlowData), inc.net_income = none →
        (prepare_data_for_csv_generic t y q inc bal cf).net_income = 0)
    ∧ (∀ (t : String) (y q : Option String) (inc : IncomeData) (bal : BalanceData)
        (cf : CashFlowData), bal.total_assets = none →
        (prepare_data_for_csv_generic t y q inc bal cf).total_assets = 0) := by
  refine ⟨?_, ?_, ?_, ?_, ?_, ?_⟩ <;> intros <;>
    simp_all [extract_income_statement_generic, extract_balance_sheet_generic,
      prepare_data_for_csv_generic]

/-- Witness for C7 at the empty match set. -/
theorem C7_absent_metrics_amended_witness :
    (extract_income_statement_generic {}).net_income = none :=
  C7_absent_metrics_amended.2.1 {} rfl

/-- C8 counterexample: with revenue 5000, cost of revenue 2000 AND a directly
reported gross profit 1800, the derived `gross_profit_calculated = 3000` is
still computed — the claim's "only when gross_profit itself is absent" fails
(the reported value is nonetheless preserved). -/
theorem C8_counterexample :
    (extract_income_statement_generic c8m).gross_profit = some 1800
    ∧ (extract_income_statement_generic c8m).gross_profit_calculated = some 3000 := by
  constructor
  · simp +decide [c8m, extract_income_statement_generic, extractField,
      tryPatternMatches, dropCommas, pyFloat, pyFloatChars, decDigits,
      normalizeScale]
  · simp +decide [c8m, extract_income_statement_generic, extractField,
      tryPatternMatches, dropCommas, pyFloat, pyFloatChars, decDigits,
      normalizeScale]
    norm_num

/-- C8 (corrected): `gross_profit_calculated = revenue - cost_of_revenue` is
computed whenever both operands are present — also when `gross_profit` was
directly reported — and is stored under its own key; the final record takes
the directly reported `gross_profit` whenever one exists, so the derived
value never overwrites it. -/
theorem C8_gross_profit_amended :
    (∀ (m : IncomeMatches) (r c : ℚ), extractField m.revenue = some r →
        extractField m.cost_of_revenue = some c →
        (extract_income_statement_generic m).gross_profit_calculated = some (r - c))
    ∧ (∀ m : IncomeMatches, extractField m.revenue = none →
        (extract_income_statement_generic m).gross_profit_calculated = none)
    ∧ (∀ m : IncomeMatches, extractField m.cost_of_revenue = none →
        (extract_income_statement_generic m).gross_profit_calculated = none)
    ∧ (∀ (m : IncomeMatches) (g : ℚ), extractField m.gross_profit = some g →
        (extract_income_statement_generic m).gross_profit = some g)
    ∧ (∀ (t : String) (y q : Option String) (inc : IncomeData) (bal : BalanceData)
        (cf : CashFlowData) (g : ℚ), inc.gross_profit = some g →
        (prepare_data_for_csv_generic t y q inc bal cf).gross_profit = g) := by
  refine ⟨?_, ?_, ?_, ?_, ?_⟩
  · intro m r c h1 h2
    simp [extract_income_statement_generic, h1, h2]
  · intro m h
    simp [extract_income_statement_generic, h]
  · intro m h
    cases hrev : extractField m.revenue <;>
      simp [extract_income_statement_generic, h, hrev]
  · intro m g h
    simp [extract_income_statement_generic, h]
  · intro t y q inc bal cf g h
    simp [prepare_data_for_csv_generic, h]

/-- Witness for C8 at `c8m`. -/
theorem C8_gross_profit_amended_witness :
    (extract_income_statement_generic c8m).gross_profit_calculated = some (5000 - 2000) :=
  C8_gross_profit_amended.1 c8m 5000 2000
    (by
      simp +decide [c8m, extractField, tryPatternMatches, dropCommas, pyFloat,
        pyFloatChars, decDigits, normalizeScale])
    (by
      simp +decide [c8m, extractField, tryPatternMatches, dropCommas, pyFloat,
        pyFloatChars, decDigits, normalizeScale])

/-- The overwrite-fold over the regexes of one alias keeps the LAST regex
that produced a valid match. -/
theorem tagValue_foldl (pats : List (List String)) (acc : Option ℚ) :
    pats.foldl
      (fun acc ms =>
        match firstValid ms with
        | some v => some v
        | none => acc)
      acc =
    match (pats.reverse).findSome? firstValid with
    | some v => some v
    | none => acc := by
  induction pats generalizing acc with
  | nil => rfl
  | cons ms pats ih =>
    rw [List.foldl_cons, ih]
    rw [List.reverse_cons, List.findSome?_append]
    cases h : (pats.reverse).findSome? firstValid <;>
      cases h2 : firstValid ms <;>
        simp [h, h2, Option.or]

/-- `values[tag] = v` makes `(tag, v)` a member. -/
theorem mem_setKey_self (l : List (String × ℚ)) (k : String) (v : ℚ) :
    (k, v) ∈ setKey l k v := by
  induction l with
  | nil => simp [setKey]
  | cons p rest ih =>
    by_cases h : p.1 = k <;> simp [setKey, h, ih]

/-- Assigning a different key preserves membership. -/
theorem mem_setKey_other {l : List (String × ℚ)} {t : String} {v : ℚ}
    (hm : (t, v) ∈ l) {k : String} (hk : t ≠ k) (v' : ℚ) :
    (t, v) ∈ setKey l k v' := by
  induction l with
  | nil => simp at hm
  | cons p rest ih =>
    by_cases h : p.1 = k
    · rcases List.mem_cons.mp hm with heq | hm2
      · rw [← heq] at h
        exact absurd h hk
      · simp [setKey, h, hm2]
    · rcases List.mem_cons.mp hm with heq | hm2
      · simp [setKey, h]
        exact Or.inl (by rw [heq])
      · simp [setKey, h]
        exact Or.inr (ih hm2)

/-- The alias fold preserves entries whose key is never assigned again. -/
theorem extract_fold_preserve (tags : List (String × List (List String)))
    {t : String} {v : ℚ} :
    ∀ acc : List (String × ℚ), (t, v) ∈ acc → (∀ tp ∈ tags, tp.1 ≠ t) →
    (t, v) ∈ tags.foldl
      (fun acc tp =>
        match tagValue tp.2 with
        | some w => setKey acc tp.1 w
        | none => acc)
      acc := by
  induction tags with
  | nil => intro acc hm _; exact hm
  | cons tp rest ih =>
    intro acc hm hne
    rw [List.foldl_cons]
    have hstep : (t, v) ∈
        (match tagValue tp.2 with
          | some w => setKey acc tp.1 w
          | none => acc) := by
      cases h : tagValue tp.2 with
      | none => exact hm
      | some w =>
        exact mem_setKey_other hm (fun he => hne tp (List.mem_cons_self tp rest) he.symm) w
    exact ih _ hstep (fun q hq => hne q (List.mem_cons_of_mem tp hq))

/-- Generalized-accumulator form of the every-alias-is-stored property. -/
theorem extract_fold_mem (t : String) (pats : List (List String)) (v : ℚ) :
    ∀ (tags : List (String × List (List String))) (acc : List (String × ℚ)),
      (tags.map Prod.fst).Nodup → (t, pats) ∈ tags → tagValue pats = some v →
      (t, v) ∈ tags.foldl
        (fun acc tp =>
          match tagValue tp.2 with
          | some w => setKey acc tp.1 w
          | none => acc)
        acc := by
  intro tags
  induction tags with
  | nil => intro acc _ hm _; simp at hm
  | cons tp rest ih =>
    intro acc hnd hm hv
    rw [List.map_cons] at hnd
    have hnd2 := List.nodup_cons.mp hnd
    rw [List.foldl_cons]
    rcases List.mem_cons.mp hm with heq | hm2
    · have ht : tp.1 = t := by rw [← heq]
      have hpats : tp.2 = pats := by rw [← heq]
      have hne : ∀ q ∈ rest, q.1 ≠ t := by
        intro q hq he
        exact hnd2.1 (ht ▸ he ▸ List.mem_map_of_mem Prod.fst hq)
      have hstep : (t, v) ∈
          (match tagValue tp.2 with
            | some w => setKey acc tp.1 w
            | none => acc) := by
        rw [hpats, hv, ht]
        exact mem_setKey_self acc t v
      exact extract_fold_preserve rest _ hstep hne
    · exact ih _ hnd2.2 hm2 hv

/-- C6 counterexample: with both the preferred alias (value 5000) and a later
alias (value 7000) matching, the later alias IS tried, both are extracted,
and the value that persists through `INSERT OR REPLACE` is the later one —
not the first alias's. -/
theorem C6_counterexample :
    extract_values_direct_search c6Tags =
      [("RevenueFromContractWithCustomerExcludingAssessedTax", 5000), ("Revenues", 7000)]
    ∧ save_metric_value c6Tags = some 7000
    ∧ tagValue [[("5000")]] = some 5000 := by
  refine ⟨?_, ?_, ?_⟩ <;>
    · simp +decide [c6Tags, save_metric_value, extract_values_direct_search,
        setKey, tagValue, firstValid, cleanParseTagText, pyFloatChars, decDigits]
      try norm_num [setKey]
      try simp +decide

/-- C6 (corrected): `extract_values_direct_search` iterates over EVERY alias
in the list — a valid value for an earlier alias does not stop the loop; an
alias's own value comes from the LAST of its regexes with a valid match, and
inside one regex from the first match whose absolute value exceeds 0.01. -/
theorem C6_alias_iteration_amended :
    (∀ pats : List (List String),
        tagValue pats = (pats.reverse).findSome? firstValid)
    ∧ (∀ (tags : List (String × List (List String))) (t : String)
        (pats : List (List String)) (v : ℚ), (tags.map Prod.fst).Nodup →
        (t, pats) ∈ tags → tagValue pats = some v →
        (t, v) ∈ extract_values_direct_search tags)
    ∧ (∀ (m : String) (rest : List String) (v : ℚ), cleanParseTagText m = some v →
        1 / 100 < |v| → firstValid (m :: rest) = some v) := by
  refine ⟨?_, ?_, ?_⟩
  · intro pats
    unfold tagValue
    rw [tagValue_foldl]
    cases (pats.reverse).findSome? firstValid <;> rfl
  · intro tags t pats v hnd hm hv
    exact extract_fold_mem t pats v tags [] hnd hm hv
  · intro m rest v h1 h2
    simp only [firstValid, h1]
    rw [if_pos h2]

/-- Witness for C6: the second alias of `c6Tags` is extracted even though the
first alias already produced a valid value. -/
theorem C6_alias_iteration_amended_witness :
    (("Revenues", (7000 : ℚ))) ∈ extract_values_direct_search c6Tags :=
  C6_alias_iteration_amended.2.1 c6Tags ("Revenues") [[("7000")]] 7000
    (by decide)
    (by simp [c6Tags])
    (by
      simp +decide [tagValue, firstValid, cleanParseTagText, pyFloatChars, decDigits]
      norm_num)

/-- Setting then reading the same period slot. -/
theorem slot_setSlot_self (yd : YearData) (p : Period) (e : Entry) :
    (yd.setSlot p e).slot p = some e := by
  cases p <;> rfl

/-- Overwriting the same period slot. -/
theorem setSlot_setSlot (yd : YearData) (p : Period) (e e' : Entry) :
    (yd.setSlot p e).setSlot p e' = yd.setSlot p e' := by
  cases p <;> rfl

/-- C1 counterexample: with YTD(Q1) = 100 and YTD(Q2) = 0, the truthiness
guard `if prev_value and quarterly_value` skips the subtraction, so the
emitted Q2 quarterly value is the raw 0 and not YTD(Q2) − YTD(Q1) = −100. -/
theorem C1_counterexample :
    process_metric c1xFacts = .ok
      [ ⟨2023, .Q2, .YTD, 0, ("2023-06-30"), some ("2023-08-01")⟩
      , ⟨2023, .Q2, .Quarterly, 0, ("2023-06-30"), some ("2023-08-01")⟩
      , ⟨2023, .Q1, .Quarterly, 100, ("2023-03-31"), some ("2023-05-01")⟩ ]
    ∧ (0 : ℚ) ≠ 0 - 100 := by
  constructor
  · simp +decide [c1xFacts, process_metric, extract_quarterly_data, sortFactsDesc,
      insFact, keyLt, sortKey, buildYears, updateYears, updSlot, pyStrGtOpt,
      entryOfFact, YearData.slot, YearData.setSlot, sortNatDesc, insNatDesc,
      lookupYD, processYears, latestQ, emitQuarters, quarterOrder, quarterRow,
      predQ, NUM_QUARTERS, Except.map, Except.pure, Except.instMonad, bind,
      Except.bind]
    try norm_num
  · norm_num

/-- C1 (corrected): the quarterly value of Q2..Q4 is YTD(Q) − YTD(Q−1)
whenever both year-to-date values are non-zero (when either value is zero
the raw YTD figure is kept, which only matters for YTD(Q) = 0 since
subtracting a zero predecessor is a no-op); Q1 keeps its own YTD value; the
spec's 100/250/400/500 example reconciles to 100/150/150/100 with the annual
total entering as the Q4-period fact. -/
theorem C1_quarterly_decomposition_amended :
    (∀ (fy : Nat) (yd : YearData) (q pq : Period) (e pe : Entry),
        predQ q = some pq → yd.slot pq = some pe → pe.value ≠ 0 → e.value ≠ 0 →
        (quarterRow fy yd q e).value = e.value - pe.value)
    ∧ (∀ (fy : Nat) (yd : YearData) (e : Entry),
        (quarterRow fy yd .Q1 e).value = e.value)
    ∧ process_metric c1Facts = .ok c1Rows := by
  refine ⟨?_, ?_, ?_⟩
  · intro fy yd q pq e pe h1 h2 h3 h4
    simp [quarterRow, h1, h2, h3, h4]
  · intro fy yd e
    simp [quarterRow, predQ]
  · simp +decide [c1Facts, c1Rows, process_metric, extract_quarterly_data,
      sortFactsDesc, insFact, keyLt, sortKey, buildYears, updateYears, updSlot,
      pyStrGtOpt, entryOfFact, YearData.slot, YearData.setSlot, sortNatDesc,
      insNatDesc, lookupYD, processYears, latestQ, emitQuarters, quarterOrder,
      quarterRow, predQ, NUM_QUARTERS, Except.map, Except.pure, Except.instMonad,
      bind, Except.bind]
    try norm_num

/-- Witness for C1 with YTD(Q1) = 100 and YTD(Q2) = 250. -/
theorem C1_quarterly_decomposition_amended_witness :
    (quarterRow 2023 { q1 := some ⟨100, ("2023-03-31"), none, .Q1⟩ } .Q2
      ⟨250, ("2023-06-30"), none, .Q2⟩).value = 250 - 100 :=
  C1_quarterly_decomposition_amended.1 2023
    { q1 := some ⟨100, ("2023-03-31"), none, .Q1⟩ } .Q2 .Q1
    ⟨250, ("2023-06-30"), none, .Q2⟩ ⟨100, ("2023-03-31"), none, .Q1⟩
    rfl rfl (by norm_num) (by norm_num)

/-- C2 counterexample: a Q2 fact whose Q1 predecessor is missing still
produces a Quarterly row, and its value is the raw YTD figure 250 — not an
explicitly absent value. -/
theorem C2_counterexample :
    process_metric c2Facts = .ok
      [ ⟨2023, .Q2, .YTD, 250, ("2023-06-30"), some ("2023-08-01")⟩
      , ⟨2023, .Q2, .Quarterly, 250, ("2023-06-30"), some ("2023-08-01")⟩ ] := by
  simp +decide [c2Facts, process_metric, extract_quarterly_data, sortFactsDesc,
    insFact, keyLt, sortKey, buildYears, updateYears, updSlot, pyStrGtOpt,
    entryOfFact, YearData.slot, YearData.setSlot, sortNatDesc, insNatDesc,
    lookupYD, processYears, latestQ, emitQuarters, quarterOrder, quarterRow,
    predQ, NUM_QUARTERS, Except.map, Except.pure, Except.instMonad, bind,
    Except.bind]

/-- C2 (corrected): when the predecessor quarter's YTD value is missing the
subtraction is skipped and the quarter is emitted with its raw YTD figure
(no error is raised: the emission functions are total). -/
theorem C2_missing_predecessor_amended :
    ∀ (fy : Nat) (yd : YearData) (q pq : Period) (e : Entry),
      predQ q = some pq → yd.slot pq = none →
      (quarterRow fy yd q e).value = e.value := by
  intro fy yd q pq e h1 h2
  simp [quarterRow, h1, h2]

/-- Witness for C2: a Q2 entry over an empty year keeps its raw value. -/
theorem C2_missing_predecessor_amended_witness :
    (quarterRow 2023 {} .Q2 ⟨250, ("2023-06-30"), none, .Q2⟩).value = 250 :=
  C2_missing_predecessor_amended 2023 {} .Q2 .Q1
    ⟨250, ("2023-06-30"), none, .Q2⟩ rfl rfl

/-- C3 counterexample: two duplicate facts whose `filed` dates are both
unavailable make the tie-break comparison raise `TypeError` — the last fact
encountered does NOT win. -/
theorem C3_counterexample :
    process_metric c3xFacts = .error .typeError := by
  simp +decide [c3xFacts, process_metric, extract_quarterly_data, sortFactsDesc,
    insFact, keyLt, sortKey, buildYears, updateYears, updSlot, pyStrGtOpt,
    entryOfFact, YearData.slot, YearData.setSlot, Except.map, Except.pure,
    Except.instMonad, bind, Except.bind]

/-- C3 (corrected): among duplicate facts at one `(fiscal_year,
fiscal_period)` key the maximum `filed` date wins, in either input order;
but when `filed` is unavailable on the duplicates the comparison raises a
`TypeError` instead of keeping the last fact encountered; the concrete
2023-01-01/2023-04-01 example reconciles to 12. -/
theorem C3_latest_filed_amended :
    (∀ (fy : Nat) (fp : Period) (E a b : String) (u v : ℚ),
        fy ≠ 0 → E ≠ "" → a < b →
        buildYears (extract_quarterly_data
          [⟨"10-Q", fy, fp, E, some a, u⟩, ⟨"10-Q", fy, fp, E, some b, v⟩])
          = .ok [(fy, YearData.setSlot {} fp ⟨v, E, some b, fp⟩)]
        ∧ buildYears (extract_quarterly_data
          [⟨"10-Q", fy, fp, E, some b, v⟩, ⟨"10-Q", fy, fp, E, some a, u⟩])
          = .ok [(fy, YearData.setSlot {} fp ⟨v, E, some b, fp⟩)])
    ∧ (∀ (fy : Nat) (fp : Period) (E : String) (u v : ℚ), fy ≠ 0 → E ≠ "" →
        buildYears (extract_quarterly_data
          [⟨"10-Q", fy, fp, E, none, u⟩, ⟨"10-Q", fy, fp, E, none, v⟩])
          = .error .typeError)
    ∧ process_metric c3Facts = .ok
      [ ⟨2023, .Q1, .YTD, 12, ("2023-03-31"), some ("2023-04-01")⟩
      , ⟨2023, .Q1, .Quarterly, 12, ("2023-03-31"), some ("2023-04-01")⟩ ] := by
  refine ⟨?_, ?_, ?_⟩
  · intro fy fp E a b u v hfy hE hab
    constructor <;>
      simp [extract_quarterly_data, sortFactsDesc, insFact, keyLt, sortKey,
        buildYears, updateYears, updSlot, pyStrGtOpt, entryOfFact, hfy, hE, hab,
        lt_asymm hab, lt_irrefl, slot_setSlot_self, setSlot_setSlot, Except.map,
        Except.pure, Except.instMonad, bind, Except.bind]
  · intro fy fp E u v hfy hE
    simp [extract_quarterly_data, sortFactsDesc, insFact, keyLt, sortKey,
      buildYears, updateYears, updSlot, pyStrGtOpt, entryOfFact, hfy, hE,
      lt_irrefl, slot_setSlot_self, Except.map, Except.pure, Except.instMonad,
      bind, Except.bind]
  · simp +decide [c3Facts, process_metric, extract_quarterly_data, sortFactsDesc,
      insFact, keyLt, sortKey, buildYears, updateYears, updSlot, pyStrGtOpt,
      entryOfFact, YearData.slot, YearData.setSlot, sortNatDesc, insNatDesc,
      lookupYD, processYears, latestQ, emitQuarters, quarterOrder, quarterRow,
      predQ, NUM_QUARTERS, Except.map, Except.pure, Except.instMonad, bind,
      Except.bind]

/-- Witness for C3: filed 2023-01-01 value 10 against filed 2023-04-01
value 12 keeps 12. -/
theorem C3_latest_filed_amended_witness :
    buildYears (extract_quarterly_data
      [ ⟨"10-Q", 2023, .Q1, ("2023-03-31"), some ("2023-01-01"), 10⟩
      , ⟨"10-Q", 2023, .Q1, ("2023-03-31"), some ("2023-04-01"), 12⟩ ])
      = .ok [(2023, YearData.setSlot {} .Q1 ⟨12, ("2023-03-31"), some ("2023-04-01"), .Q1⟩)] :=
  (C3_latest_filed_amended.1 2023 .Q1 ("2023-03-31") ("2023-01-01") ("2023-04-01")
    10 12 (by decide) (by decide) (by simp +decide)).1

/-- C9 counterexample: two duplicate facts sharing the same `(end, filed)`
sort key but different values — swapping the input order changes the
reconciled result, so permutation invariance fails exactly in the shared
`filed` date case the claim includes. -/
theorem C9_counterexample :
    [c9a, c9b].Perm [c9b, c9a]
    ∧ process_metric [c9a, c9b] ≠ process_metric [c9b, c9a] := by
  constructor
  · exact List.Perm.swap c9b c9a []
  · have h1 : process_metric [c9a, c9b] = .ok
        [ ⟨2023, .Q1, .YTD, 10, ("2023-03-31"), some ("2023-05-01")⟩
        , ⟨2023, .Q1, .Quarterly, 10, ("2023-03-31"), some ("2023-05-01")⟩ ] := by
      simp +decide [c9a, c9b, process_metric, extract_quarterly_data, sortFactsDesc,
        insFact, keyLt, sortKey, buildYears, updateYears, updSlot, pyStrGtOpt,
        entryOfFact, YearData.slot, YearData.setSlot, sortNatDesc, insNatDesc,
        lookupYD, processYears, latestQ, emitQuarters, quarterOrder, quarterRow,
        predQ, NUM_QUARTERS, Except.map, Except.pure, Except.instMonad, bind,
        Except.bind]
    have h2 : process_metric [c9b, c9a] = .ok
        [ ⟨2023, .Q1, .YTD, 12, ("2023-03-31"), some ("2023-05-01")⟩
        , ⟨2023, .Q1, .Quarterly, 12, ("2023-03-31"), some ("2023-05-01")⟩ ] := by
      simp +decide [c9a, c9b, process_metric, extract_quarterly_data, sortFactsDesc,
        insFact, keyLt, sortKey, buildYears, updateYears, updSlot, pyStrGtOpt,
        entryOfFact, YearData.slot, YearData.setSlot, sortNatDesc, insNatDesc,
        lookupYD, processYears, latestQ, emitQuarters, quarterOrder, quarterRow,
        predQ, NUM_QUARTERS, Except.map, Except.pure, Except.instMonad, bind,
        Except.bind]
    rw [h1, h2]
    simp only [ne_eq, Except.ok.injEq, List.cons.injEq, Row.mk.injEq]
    norm_num

/-- C9 (corrected): the pipeline is a pure function, so repeated runs on the
same sequence agree definitionally; reordering the facts leaves the result
unchanged provided no two facts share the same `(end, filed)` sort key —
duplicates sharing a `filed` date (and period end) are resolved by input
order instead. -/
theorem C9_idempotence_amended :
    (∀ l : List Fact, process_metric l = process_metric l)
    ∧ (∀ l l' : List Fact, l.Perm l' →
        l.Pairwise (fun f g => sortKey f ≠ sortKey g) →
        process_metric l = process_metric l') := by
  refine ⟨fun l => rfl, ?_⟩
  intro l l' hp hnd
  unfold process_metric
  rw [extract_quarterly_data_eq_of_perm hp hnd]

/-- Witness for C9: swapping two facts with distinct sort keys leaves the
result unchanged. -/
theorem C9_idempotence_amended_witness :
    process_metric [c9a, c9c] = process_metric [c9c, c9a] :=
  C9_idempotence_amended.2 [c9a, c9c] [c9c, c9a]
    (List.Perm.swap c9c c9a []) (by decide)

end Quant
